import Mathlib

/-!
Shallow embedding of the stopwatch-manager repository.

Part 1: the stopwatch model from src/app/page.tsx.
A stopwatch record carries an id, a display name, a running flag, the
epoch-millisecond timestamp of the last start (null while stopped), and
the accumulated elapsed milliseconds while not running.  Every call to
the host clock (Date.now()) is modelled as an explicit Int parameter t.

Part 2: the recipe CRUD route from src/unnamed/part_000 (a Next.js
route handler over a key-value store).  The store's value under the
fixed key is modelled as an Option (List Recipe) (none = key absent);
each handler returns its HTTP status, its JSON payload where relevant,
the store state afterwards, and whether a write (kv.set) happened.
-/

namespace StopwatchMgr

structure Stopwatch where
  id : String
  name : String
  isRunning : Bool
  startedAt : Option Int
  elapsed : Int
  deriving DecidableEq, Repr

/-- padStart(2, "0") on the decimal rendering of a natural number. -/
def pad2 (n : Nat) : String :=
  if n < 10 then "0" ++ toString n else toString n

/-- The format function of page.tsx: renders milliseconds as
[-]HH:MM:SS.hh, the hour segment dropped when hours = 0. -/
def format (ms : Int) : String :=
  let a := ms.natAbs
  let hours := a / 3600000
  let minutes := (a % 3600000) / 60000
  let seconds := (a % 60000) / 1000
  let hundredths := (a % 1000) / 10
  let h := if hours > 0 then pad2 hours ++ ":" else ""
  (if ms < 0 then "-" else "") ++ h ++
    pad2 minutes ++ ":" ++ pad2 seconds ++ "." ++ pad2 hundredths

/-- computedElapsed of page.tsx, with the Date.now() call passed in as t. -/
def computedElapsed (t : Int) (sw : Stopwatch) : Int :=
  match sw.startedAt with
  | some s => if sw.isRunning then sw.elapsed + (t - s) else sw.elapsed
  | none => sw.elapsed

/-- Body of the map in the start handler: start the target if stopped. -/
def startSW (i : String) (t : Int) (sw : Stopwatch) : Stopwatch :=
  if sw.id = i ∧ sw.isRunning = false then
    { sw with isRunning := true, startedAt := some t }
  else sw

/-- Body of the map in the stop handler: fold the running interval into
elapsed when the target is running with a recorded start. -/
def stopSW (i : String) (t : Int) (sw : Stopwatch) : Stopwatch :=
  match sw.startedAt with
  | some s =>
      if sw.id = i ∧ sw.isRunning = true then
        { sw with isRunning := false, elapsed := sw.elapsed + (t - s),
                  startedAt := none }
      else sw
  | none => sw

/-- Body of the map in the reset handler. -/
def resetSW (i : String) (sw : Stopwatch) : Stopwatch :=
  if sw.id = i then
    { sw with elapsed := 0, startedAt := none, isRunning := false }
  else sw

/-- Body of the map in the rename handler. -/
def renameSW (i : String) (n : String) (sw : Stopwatch) : Stopwatch :=
  if sw.id = i then { sw with name := n } else sw

/-- addStopwatch of page.tsx; the crypto.randomUUID() result is passed
in as newId. -/
def addStopwatch (newId : String) (l : List Stopwatch) : List Stopwatch :=
  l ++ [{ id := newId, name := "Stopwatch " ++ toString (l.length + 1),
          isRunning := false, startedAt := none, elapsed := 0 }]

/-- deleteStopwatch of page.tsx. -/
def deleteStopwatch (i : String) (l : List Stopwatch) : List Stopwatch :=
  l.filter (fun sw => sw.id ≠ i)

/-- start of page.tsx over the whole list. -/
def start (i : String) (t : Int) (l : List Stopwatch) : List Stopwatch :=
  l.map (startSW i t)

/-- stop of page.tsx over the whole list. -/
def stop (i : String) (t : Int) (l : List Stopwatch) : List Stopwatch :=
  l.map (stopSW i t)

/-- reset of page.tsx over the whole list. -/
def reset (i : String) (l : List Stopwatch) : List Stopwatch :=
  l.map (resetSW i)

/-- rename of page.tsx over the whole list. -/
def rename (i : String) (n : String) (l : List Stopwatch) : List Stopwatch :=
  l.map (renameSW i n)

/-- The data-model invariant: a running stopwatch has a start timestamp. -/
def InvSW (sw : Stopwatch) : Prop :=
  sw.isRunning = true → sw.startedAt ≠ none

instance : DecidablePred InvSW := fun sw => by
  unfold InvSW; infer_instance

end StopwatchMgr

namespace RecipesApi

structure Recipe where
  id : String
  title : String
  content : String
  createdAt : Int
  updatedAt : Int
  deriving DecidableEq, Repr

/-- The store state: the value of the kv record under the fixed
RECIPES_KEY, or none when the key is absent.  kv.get ... || [] in the
handlers is Option.getD on this. -/
abbrev Store := Option (List Recipe)

/-- JavaScript truthiness of an optional string field: absent and the
empty string are falsy, everything else is truthy. -/
def truthy (s : Option String) : Bool :=
  match s with
  | some v => !(v == "")
  | none => false

/-- Outcome of a mutating recipe handler: the HTTP status, the recipe
in the JSON response when there is one, the store afterwards, and
whether kv.set was called. -/
structure ApiResult where
  status : Nat
  recipe : Option Recipe
  store : Store
  wrote : Bool
  deriving DecidableEq, Repr

/-- GET of the recipes route: read the list, default to empty. -/
def GET (store : Store) : List Recipe :=
  store.getD []

/-- POST of the recipes route.  The request body's title and content are
optional strings; crypto.randomUUID() is passed in as newId and the two
Date.now() calls as the single current time t. -/
def POST (title content : Option String) (store : Store)
    (newId : String) (t : Int) : ApiResult :=
  if !(truthy title) || !(truthy content) then
    { status := 400, recipe := none, store := store, wrote := false }
  else
    let recipes := store.getD []
    let newRecipe : Recipe :=
      { id := newId, title := title.getD "", content := content.getD "",
        createdAt := t, updatedAt := t }
    { status := 201, recipe := some newRecipe,
      store := some (recipes ++ [newRecipe]), wrote := true }

/-- PUT of the recipes route: findIndex by id, replace title/content and
refresh updatedAt at that index, write back. -/
def PUT (i title content : Option String) (store : Store)
    (t : Int) : ApiResult :=
  if !(truthy i) || !(truthy title) || !(truthy content) then
    { status := 400, recipe := none, store := store, wrote := false }
  else
    let recipes := store.getD []
    match recipes.findIdx? (fun r => r.id == i.getD "") with
    | none =>
        { status := 404, recipe := none, store := store, wrote := false }
    | some idx =>
        match recipes.get? idx with
        | none =>
            { status := 404, recipe := none, store := store, wrote := false }
        | some old =>
            let upd : Recipe :=
              { old with title := title.getD "", content := content.getD "",
                         updatedAt := t }
            { status := 200, recipe := some upd,
              store := some (recipes.set idx upd), wrote := true }

/-- Outcome of DELETE: status, the success flag of the JSON body, the
store afterwards, and whether kv.set was called. -/
structure DeleteResult where
  status : Nat
  success : Bool
  store : Store
  wrote : Bool
  deriving DecidableEq, Repr

/-- DELETE of the recipes route: the id query parameter is none when
absent from the URL.  Filter out the matching id; unchanged length means
not found. -/
def DELETE (i : Option String) (store : Store) : DeleteResult :=
  if !(truthy i) then
    { status := 400, success := false, store := store, wrote := false }
  else
    let recipes := store.getD []
    let filtered := recipes.filter (fun r => !(r.id == i.getD ""))
    if recipes.length == filtered.length then
      { status := 404, success := false, store := store, wrote := false }
    else
      { status := 200, success := true, store := some filtered, wrote := true }

end RecipesApi

namespace StopwatchMgr

/-- pad2 yields exactly two characters on inputs below 100. -/
theorem pad2_length_lt : ∀ n < 100, (pad2 n).length = 2 := by decide

/-- Unfolding of format on a non-negative (Nat-cast) input. -/
theorem format_ofNat (n : Nat) :
    format (n : Int) =
      (if n / 3600000 > 0 then pad2 (n / 3600000) ++ ":" else "") ++
        pad2 ((n % 3600000) / 60000) ++ ":" ++
        pad2 ((n % 60000) / 1000) ++ "." ++ pad2 ((n % 1000) / 10) := by
  have hneg : ¬ ((n : Int) < 0) := by omega
  simp only [format, Int.natAbs_ofNat, if_neg hneg, String.empty_append]

/-- format on a negative input is the minus sign followed by the body
produced for the absolute value. -/
theorem format_neg (ms : Int) (h : ms < 0) :
    format ms = "-" ++ format (-ms) := by
  have h1 : ¬ ((-ms) < 0) := by omega
  simp only [format, Int.natAbs_neg, if_pos h, if_neg h1,
    String.empty_append, String.append_assoc]

end StopwatchMgr

namespace StopwatchMgr

/-- C1: computedElapsed returns elapsed when the stopwatch is stopped,
elapsed + (t - startedAt) when it is running with start timestamp s, and
while running it is monotonically non-decreasing in the current time. -/
theorem computedElapsed_spec :
    (∀ (sw : Stopwatch) (t : Int), sw.isRunning = false →
        computedElapsed t sw = sw.elapsed) ∧
    (∀ (sw : Stopwatch) (t s : Int), sw.isRunning = true →
        sw.startedAt = some s →
        computedElapsed t sw = sw.elapsed + (t - s)) ∧
    (∀ (sw : Stopwatch) (t1 t2 : Int), sw.isRunning = true → t1 ≤ t2 →
        computedElapsed t1 sw ≤ computedElapsed t2 sw) := by
  refine ⟨?_, ?_, ?_⟩
  · intro sw t h
    unfold computedElapsed
    cases hs : sw.startedAt <;> simp [h]
  · intro sw t s h hs
    unfold computedElapsed
    simp [hs, h]
  · intro sw t1 t2 h hle
    unfold computedElapsed
    cases hs : sw.startedAt
    · simp
    · simp only [h, if_true]
      omega

/-- Concrete instantiation of the C1 theorem. -/
theorem computedElapsed_spec_witness :
    computedElapsed 7 ⟨"a", "x", false, none, 5⟩ = 5 ∧
    computedElapsed 7 ⟨"a", "x", true, some 2, 5⟩ = 5 + (7 - 2) ∧
    computedElapsed 3 ⟨"a", "x", true, some 2, 5⟩ ≤
      computedElapsed 7 ⟨"a", "x", true, some 2, 5⟩ :=
  ⟨computedElapsed_spec.1 _ 7 rfl,
   computedElapsed_spec.2.1 _ 7 2 rfl rfl,
   computedElapsed_spec.2.2 _ 3 7 rfl (by decide)⟩

/-- C2: on a running stopwatch with start timestamp s and accumulated
elapsed e, stop at t1 then start at t2 then stop at t3 accumulates both
running intervals: the record at the same position ends with elapsed
e + (t1 - s) + (t3 - t2), not running, no start timestamp, id and name
untouched. -/
theorem stop_start_stop_accumulates (l : List Stopwatch) (i : String)
    (s t1 t2 t3 : Int) (k : Nat) (sw : Stopwatch)
    (hk : l[k]? = some sw) (hid : sw.id = i)
    (hrun : sw.isRunning = true) (hs : sw.startedAt = some s)
    (_h12 : t1 ≤ t2) (_h23 : t2 ≤ t3) :
    (stop i t3 (start i t2 (stop i t1 l)))[k]? =
      some { id := sw.id, name := sw.name, isRunning := false,
             startedAt := none,
             elapsed := sw.elapsed + (t1 - s) + (t3 - t2) } := by
  have e1 : stopSW i t1 sw =
      { sw with isRunning := false, elapsed := sw.elapsed + (t1 - s),
                startedAt := none } := by
    unfold stopSW
    simp [hs, hid, hrun]
  have e2 : startSW i t2 (stopSW i t1 sw) =
      { sw with isRunning := true, elapsed := sw.elapsed + (t1 - s),
                startedAt := some t2 } := by
    rw [e1]
    unfold startSW
    simp [hid]
  have e3 : stopSW i t3 (startSW i t2 (stopSW i t1 sw)) =
      { id := sw.id, name := sw.name, isRunning := false,
        startedAt := none,
        elapsed := sw.elapsed + (t1 - s) + (t3 - t2) } := by
    rw [e2]
    unfold stopSW
    simp [hid]
  simp only [stop, start, List.getElem?_map, hk, Option.map_some']
  rw [e3]

/-- Concrete instantiation of the C2 theorem. -/
theorem stop_start_stop_accumulates_witness :
    (stop "a" 35 (start "a" 20 (stop "a" 10
        [⟨"a", "x", true, some 5, 100⟩])))[0]? =
      some { id := "a", name := "x", isRunning := false,
             startedAt := none, elapsed := 100 + (10 - 5) + (35 - 20) } :=
  stop_start_stop_accumulates [⟨"a", "x", true, some 5, 100⟩] "a"
    5 10 20 35 0 ⟨"a", "x", true, some 5, 100⟩ rfl rfl rfl rfl
    (by decide) (by decide)

/-- start leaves a record with a different id unchanged. -/
theorem startSW_ne (i : String) (t : Int) (sw : Stopwatch)
    (h : sw.id ≠ i) : startSW i t sw = sw := by
  unfold startSW
  rw [if_neg (fun hc => h hc.1)]

/-- stop leaves a record with a different id unchanged. -/
theorem stopSW_ne (i : String) (t : Int) (sw : Stopwatch)
    (h : sw.id ≠ i) : stopSW i t sw = sw := by
  unfold stopSW
  split
  · rw [if_neg (fun hc => h hc.1)]
  · rfl

/-- reset leaves a record with a different id unchanged. -/
theorem resetSW_ne (i : String) (sw : Stopwatch)
    (h : sw.id ≠ i) : resetSW i sw = sw := by
  unfold resetSW
  rw [if_neg h]

/-- rename leaves a record with a different id unchanged. -/
theorem renameSW_ne (i n : String) (sw : Stopwatch)
    (h : sw.id ≠ i) : renameSW i n sw = sw := by
  unfold renameSW
  rw [if_neg h]

/-- C3: format satisfies the three concrete examples; for non-negative
inputs the hour segment appears exactly when floor(ms / 3600000) is
positive, minutes and seconds are always two zero-padded digits, the
hundredths field is pad2 of floor((ms mod 1000) / 10); negative inputs
render as a minus sign followed by the absolute value's rendering. -/
theorem format_spec :
    format 0 = "00:00.00" ∧ format 61230 = "01:01.23" ∧
    format 3661000 = "01:01:01.00" ∧
    (∀ n : Nat, n / 3600000 = 0 →
        format (n : Int) =
          pad2 ((n % 3600000) / 60000) ++ ":" ++
          pad2 ((n % 60000) / 1000) ++ "." ++ pad2 ((n % 1000) / 10)) ∧
    (∀ n : Nat, 0 < n / 3600000 →
        format (n : Int) =
          pad2 (n / 3600000) ++ ":" ++
          pad2 ((n % 3600000) / 60000) ++ ":" ++
          pad2 ((n % 60000) / 1000) ++ "." ++ pad2 ((n % 1000) / 10)) ∧
    (∀ n : Nat, (pad2 ((n % 3600000) / 60000)).length = 2 ∧
        (pad2 ((n % 60000) / 1000)).length = 2) ∧
    (∀ ms : Int, ms < 0 → format ms = "-" ++ format (-ms)) := by
  refine ⟨by decide, by decide, by decide, ?_, ?_, ?_, format_neg⟩
  · intro n h
    rw [format_ofNat, h]
    simp [String.empty_append]
  · intro n h
    rw [format_ofNat, if_pos h]
  · intro n
    constructor
    · exact pad2_length_lt _ (by omega)
    · exact pad2_length_lt _ (by omega)

/-- Concrete instantiation of the hypothesis-bearing parts of the C3
theorem. -/
theorem format_spec_witness :
    format ((61230 : Nat) : Int) =
      pad2 ((61230 % 3600000) / 60000) ++ ":" ++
      pad2 ((61230 % 60000) / 1000) ++ "." ++ pad2 ((61230 % 1000) / 10) ∧
    format ((3661000 : Nat) : Int) =
      pad2 (3661000 / 3600000) ++ ":" ++
      pad2 ((3661000 % 3600000) / 60000) ++ ":" ++
      pad2 ((3661000 % 60000) / 1000) ++ "." ++
      pad2 ((3661000 % 1000) / 10) ∧
    format (-61230) = "-" ++ format (-(-61230)) :=
  ⟨format_spec.2.2.2.1 61230 (by decide),
   format_spec.2.2.2.2.1 3661000 (by decide),
   format_spec.2.2.2.2.2.2 (-61230) (by decide)⟩

end StopwatchMgr

namespace StopwatchMgr

/-- C4: every operation preserves the invariant that a running
stopwatch carries a start timestamp. -/
theorem inv_preserved (l : List Stopwatch) (h : ∀ sw ∈ l, InvSW sw) :
    (∀ newId : String, ∀ sw ∈ addStopwatch newId l, InvSW sw) ∧
    (∀ i : String, ∀ sw ∈ deleteStopwatch i l, InvSW sw) ∧
    (∀ (i : String) (t : Int), ∀ sw ∈ start i t l, InvSW sw) ∧
    (∀ (i : String) (t : Int), ∀ sw ∈ stop i t l, InvSW sw) ∧
    (∀ i : String, ∀ sw ∈ reset i l, InvSW sw) ∧
    (∀ i n : String, ∀ sw ∈ rename i n l, InvSW sw) := by
  refine ⟨?_, ?_, ?_, ?_, ?_, ?_⟩
  · intro newId sw hsw
    rcases List.mem_append.mp hsw with hmem | hmem
    · exact h sw hmem
    · simp only [List.mem_singleton] at hmem
      subst hmem
      intro hfalse
      simp at hfalse
  · intro i sw hsw
    exact h sw (List.mem_of_mem_filter hsw)
  · intro i t sw hsw
    rcases List.mem_map.mp hsw with ⟨x, hx, rfl⟩
    unfold startSW
    split
    · intro _
      simp
    · exact h x hx
  · intro i t sw hsw
    rcases List.mem_map.mp hsw with ⟨x, hx, rfl⟩
    unfold stopSW
    split
    · split
      · intro hfalse
        simp at hfalse
      · exact h x hx
    · exact h x hx
  · intro i sw hsw
    rcases List.mem_map.mp hsw with ⟨x, hx, rfl⟩
    unfold resetSW
    split
    · intro hfalse
      simp at hfalse
    · exact h x hx
  · intro i n sw hsw
    rcases List.mem_map.mp hsw with ⟨x, hx, rfl⟩
    unfold renameSW
    split
    · intro hr
      simp only [Stopwatch.mk.injEq]
      exact h x hx hr
    · exact h x hx

/-- Concrete instantiation of the C4 theorem. -/
theorem inv_preserved_witness :
    InvSW ⟨"a", "x", true, some 9, 0⟩ :=
  (inv_preserved [⟨"a", "x", false, none, 0⟩] (by decide)).2.2.1 "a" 9
    ⟨"a", "x", true, some 9, 0⟩ (by decide)

/-- C5: reset maps the record with the matching id to elapsed 0, not
running, no start timestamp, keeping its id and name; other records are
untouched; the list length is unchanged. -/
theorem reset_spec (l : List Stopwatch) (i : String) (k : Nat)
    (sw : Stopwatch) (hk : l[k]? = some sw) :
    (reset i l).length = l.length ∧
    (reset i l)[k]? = some (if sw.id = i then
        { id := sw.id, name := sw.name, isRunning := false,
          startedAt := none, elapsed := 0 }
      else sw) := by
  constructor
  · simp [reset]
  · simp only [reset, List.getElem?_map, hk, Option.map_some']
    by_cases hc : sw.id = i <;> simp [resetSW, hc]

/-- Concrete instantiation of the C5 theorem. -/
theorem reset_spec_witness :
    (reset "a" [⟨"a", "x", true, some 3, 7⟩]).length = 1 ∧
    (reset "a" [⟨"a", "x", true, some 3, 7⟩])[0]? =
      some (if ("a" : String) = "a" then
          { id := "a", name := "x", isRunning := false,
            startedAt := none, elapsed := 0 }
        else ⟨"a", "x", true, some 3, 7⟩) :=
  reset_spec [⟨"a", "x", true, some 3, 7⟩] "a" 0
    ⟨"a", "x", true, some 3, 7⟩ rfl

/-- C10: start, stop, reset and rename keep every position, leaving a
record with a different id exactly as it was, and deleteStopwatch
yields a sublist (order preserved) that keeps every record whose id
differs from the target. -/
theorem frame_ops (l : List Stopwatch) (i : String) :
    ((∀ t : Int, (start i t l).length = l.length) ∧
     (∀ t : Int, (stop i t l).length = l.length) ∧
     (reset i l).length = l.length ∧
     (∀ n : String, (rename i n l).length = l.length)) ∧
    (∀ (k : Nat) (sw : Stopwatch), l[k]? = some sw → sw.id ≠ i →
        (∀ t : Int, (start i t l)[k]? = some sw) ∧
        (∀ t : Int, (stop i t l)[k]? = some sw) ∧
        (reset i l)[k]? = some sw ∧
        (∀ n : String, (rename i n l)[k]? = some sw)) ∧
    (deleteStopwatch i l).Sublist l ∧
    (∀ sw ∈ l, sw.id ≠ i → sw ∈ deleteStopwatch i l) := by
  refine ⟨⟨?_, ?_, ?_, ?_⟩, ?_, ?_, ?_⟩
  · intro t; simp [start]
  · intro t; simp [stop]
  · simp [reset]
  · intro n; simp [rename]
  · intro k sw hk hne
    refine ⟨?_, ?_, ?_, ?_⟩
    · intro t
      simp only [start, List.getElem?_map, hk, Option.map_some']
      rw [startSW_ne i t sw hne]
    · intro t
      simp only [stop, List.getElem?_map, hk, Option.map_some']
      rw [stopSW_ne i t sw hne]
    · simp only [reset, List.getElem?_map, hk, Option.map_some']
      rw [resetSW_ne i sw hne]
    · intro n
      simp only [rename, List.getElem?_map, hk, Option.map_some']
      rw [renameSW_ne i n sw hne]
  · exact List.filter_sublist l
  · intro sw hsw hne
    refine List.mem_filter.mpr ⟨hsw, ?_⟩
    simp [hne]

/-- Concrete instantiation of the C10 theorem. -/
theorem frame_ops_witness :
    (start "a" 9 [⟨"b", "y", true, some 3, 7⟩])[0]? =
        some ⟨"b", "y", true, some 3, 7⟩ ∧
    ⟨"b", "y", true, some 3, 7⟩ ∈
        deleteStopwatch "a" [⟨"b", "y", true, some 3, 7⟩] :=
  ⟨((frame_ops [⟨"b", "y", true, some 3, 7⟩] "a").2.1 0
      ⟨"b", "y", true, some 3, 7⟩ rfl (by decide)).1 9,
   (frame_ops [⟨"b", "y", true, some 3, 7⟩] "a").2.2.2
      ⟨"b", "y", true, some 3, 7⟩ (by simp) (by decide)⟩

end StopwatchMgr

namespace RecipesApi

/-- C6: POST with a missing or empty title or content answers 400 and
neither changes the stored collection nor writes to the store. -/
theorem POST_invalid (title content : Option String) (store : Store)
    (newId : String) (t : Int)
    (h : truthy title = false ∨ truthy content = false) :
    (POST title content store newId t).status = 400 ∧
    (POST title content store newId t).store = store ∧
    (POST title content store newId t).wrote = false := by
  rcases h with h | h <;> simp [POST, h]

/-- Concrete instantiation of the C6 theorem. -/
theorem POST_invalid_witness :
    (POST (some "") (some "Boil water") (some []) "id1" 5).status = 400 ∧
    (POST (some "") (some "Boil water") (some []) "id1" 5).store =
      some [] ∧
    (POST (some "") (some "Boil water") (some []) "id1" 5).wrote = false :=
  POST_invalid (some "") (some "Boil water") (some []) "id1" 5
    (Or.inl (by decide))

/-- C7: POST with truthy title and content on an empty stored collection
answers 201 with the new record, whose createdAt and updatedAt are both
the current time, writes the one-element list back, and a following GET
returns exactly that record. -/
theorem POST_creates (title content : String) (store : Store)
    (newId : String) (t : Int)
    (ht : title ≠ "") (hc : content ≠ "") (hstore : store.getD [] = []) :
    (POST (some title) (some content) store newId t).status = 201 ∧
    (POST (some title) (some content) store newId t).recipe =
      some { id := newId, title := title, content := content,
             createdAt := t, updatedAt := t } ∧
    (POST (some title) (some content) store newId t).wrote = true ∧
    (POST (some title) (some content) store newId t).store =
      some [{ id := newId, title := title, content := content,
              createdAt := t, updatedAt := t }] ∧
    GET (POST (some title) (some content) store newId t).store =
      [{ id := newId, title := title, content := content,
         createdAt := t, updatedAt := t }] := by
  simp [POST, GET, truthy, ht, hc, hstore]

/-- Concrete instantiation of the C7 theorem. -/
theorem POST_creates_witness :
    (POST (some "Tea") (some "Boil water") none "id1" 5).status = 201 ∧
    (POST (some "Tea") (some "Boil water") none "id1" 5).recipe =
      some { id := "id1", title := "Tea", content := "Boil water",
             createdAt := 5, updatedAt := 5 } ∧
    (POST (some "Tea") (some "Boil water") none "id1" 5).wrote = true ∧
    (POST (some "Tea") (some "Boil water") none "id1" 5).store =
      some [{ id := "id1", title := "Tea", content := "Boil water",
              createdAt := 5, updatedAt := 5 }] ∧
    GET (POST (some "Tea") (some "Boil water") none "id1" 5).store =
      [{ id := "id1", title := "Tea", content := "Boil water",
         createdAt := 5, updatedAt := 5 }] :=
  POST_creates "Tea" "Boil water" none "id1" 5
    (by decide) (by decide) rfl

/-- C8 counterexample: a PUT whose id field is present but empty, with
valid title and content and a collection containing no record with that
id, answers 400, not the claimed 404. -/
theorem PUT_present_id_not_404 :
    (PUT (some "") (some "Tea") (some "Boil water") (some []) 0).status
        = 400 ∧
    (PUT (some "") (some "Tea") (some "Boil water") (some []) 0).status
        ≠ 404 := by
  decide

/-- C8 amended: PUT with truthy id, title and content, when no stored
record has that id, answers 404 and neither changes the stored
collection nor writes to the store. -/
theorem PUT_not_found (i title content : String) (store : Store)
    (t : Int) (hi : i ≠ "") (ht : title ≠ "") (hc : content ≠ "")
    (habs : ∀ r ∈ store.getD [], r.id ≠ i) :
    (PUT (some i) (some title) (some content) store t).status = 404 ∧
    (PUT (some i) (some title) (some content) store t).store = store ∧
    (PUT (some i) (some title) (some content) store t).wrote = false := by
  have hfind : (store.getD []).findIdx? (fun r => r.id == i) = none := by
    rw [List.findIdx?_eq_none_iff]
    intro r hr
    simpa using habs r hr
  simp [PUT, truthy, hi, ht, hc, hfind]

/-- Concrete instantiation of the amended C8 theorem. -/
theorem PUT_not_found_witness :
    (PUT (some "id9") (some "Tea") (some "Boil water")
        (some [{ id := "id1", title := "a", content := "b",
                 createdAt := 0, updatedAt := 0 }]) 3).status = 404 ∧
    (PUT (some "id9") (some "Tea") (some "Boil water")
        (some [{ id := "id1", title := "a", content := "b",
                 createdAt := 0, updatedAt := 0 }]) 3).store =
      some [{ id := "id1", title := "a", content := "b",
              createdAt := 0, updatedAt := 0 }] ∧
    (PUT (some "id9") (some "Tea") (some "Boil water")
        (some [{ id := "id1", title := "a", content := "b",
                 createdAt := 0, updatedAt := 0 }]) 3).wrote = false :=
  PUT_not_found "id9" "Tea" "Boil water"
    (some [{ id := "id1", title := "a", content := "b",
             createdAt := 0, updatedAt := 0 }]) 3
    (by decide) (by decide) (by decide) (by decide)

/-- C9 counterexample: a DELETE whose id query parameter is present but
empty, against a collection whose only recipe carries that id, answers
400 and performs no write, not the claimed success. -/
theorem DELETE_present_id_not_success :
    (DELETE (some "") (some [(⟨"", "t", "c", 0, 0⟩ : Recipe)])).status
        = 400 ∧
    (DELETE (some "") (some [(⟨"", "t", "c", 0, 0⟩ : Recipe)])).status
        ≠ 200 ∧
    (DELETE (some "") (some [(⟨"", "t", "c", 0, 0⟩ : Recipe)])).wrote
        = false := by
  decide

/-- C9 amended: DELETE with a truthy (present and non-empty) id, when
the collection holds exactly one recipe bearing that id, writes back the
empty collection and answers 200 with success; a second DELETE of the
same id then answers 404 and leaves the empty collection unwritten. -/
theorem DELETE_only_then_again (i : String) (r : Recipe)
    (hi : i ≠ "") (hr : r.id = i) :
    (DELETE (some i) (some [r])).status = 200 ∧
    (DELETE (some i) (some [r])).success = true ∧
    (DELETE (some i) (some [r])).store = some [] ∧
    (DELETE (some i) (some [r])).wrote = true ∧
    (DELETE (some i) (DELETE (some i) (some [r])).store).status = 404 ∧
    (DELETE (some i) (DELETE (some i) (some [r])).store).store =
      (DELETE (some i) (some [r])).store ∧
    (DELETE (some i) (DELETE (some i) (some [r])).store).wrote = false := by
  have h1 : DELETE (some i) (some [r]) =
      { status := 200, success := true, store := some [], wrote := true } := by
    simp [DELETE, truthy, hi, hr]
  rw [h1]
  refine ⟨rfl, rfl, rfl, rfl, ?_, ?_, ?_⟩ <;> simp [DELETE, truthy, hi]

/-- Concrete instantiation of the amended C9 theorem. -/
theorem DELETE_only_then_again_witness :
    (DELETE (some "id1")
        (some [(⟨"id1", "t", "c", 0, 0⟩ : Recipe)])).status = 200 ∧
    (DELETE (some "id1")
        (some [(⟨"id1", "t", "c", 0, 0⟩ : Recipe)])).success = true ∧
    (DELETE (some "id1")
        (some [(⟨"id1", "t", "c", 0, 0⟩ : Recipe)])).store = some [] ∧
    (DELETE (some "id1")
        (some [(⟨"id1", "t", "c", 0, 0⟩ : Recipe)])).wrote = true ∧
    (DELETE (some "id1") (DELETE (some "id1")
        (some [(⟨"id1", "t", "c", 0, 0⟩ : Recipe)])).store).status
      = 404 ∧
    (DELETE (some "id1") (DELETE (some "id1")
        (some [(⟨"id1", "t", "c", 0, 0⟩ : Recipe)])).store).store =
      (DELETE (some "id1")
        (some [(⟨"id1", "t", "c", 0, 0⟩ : Recipe)])).store ∧
    (DELETE (some "id1") (DELETE (some "id1")
        (some [(⟨"id1", "t", "c", 0, 0⟩ : Recipe)])).store).wrote
      = false :=
  DELETE_only_then_again "id1" ⟨"id1", "t", "c", 0, 0⟩ (by decide) rfl

end RecipesApi
